import Mathlib

/-!
Verification of the NER microservice in `src/nlp_service/main.py`.

The service is a FastAPI app with two routes:
  * `GET /`    → `read_root`, a fixed liveness payload;
  * `POST /ner` → `extract_entities`, which validates the JSON body into a
    `TextRequest` (pydantic model with one required field `text : str`),
    runs the spaCy model `nlp` loaded at module scope, and maps each span of
    `doc.ents` to a four-field record `{text, label, start_char, end_char}`.

The spaCy model and the web framework are external collaborators; they are
embedded here as parameters (`annotate` functions, a JSON value type, the
validation step, and the framework's status-code mapping), following the
source's use of them and the contract stated for them.
-/

namespace NlpService

/-- A JSON value, as carried by an HTTP request body. -/
inductive Json where
  | null : Json
  | bool (b : Bool) : Json
  | num (n : Int) : Json
  | str (s : String) : Json
  | arr (elems : List Json) : Json
  | obj (fields : List (String × Json)) : Json

/-- Look up a field of a JSON object; `none` on absent field or non-object. -/
def Json.getField : Json → String → Option Json
  | .obj fields, key => fields.lookup key
  | _, _ => none

/-- An entity span produced by the external spaCy model (`ent ∈ doc.ents`):
the four attributes the service reads (`ent.text`, `ent.label_`,
`ent.start_char`, `ent.end_char`). -/
structure Span where
  text : String
  label : String
  start_char : Int
  end_char : Int
deriving DecidableEq, Repr

/-- Failure of the external model while processing a text (a Python
exception raised inside `nlp(request.text)`). -/
structure ExtractorError where
  msg : String
deriving DecidableEq, Repr

/-- The external spaCy model as consumed by the service: one operation,
text in, ordered sequence of entity spans out, or an exception. -/
def Annotator : Type := String → Except ExtractorError (List Span)

/-- The request-body schema: `class TextRequest(BaseModel): text: str`. -/
structure TextRequest where
  text : String
deriving DecidableEq, Repr

/-- Why validation of a request body failed. -/
inductive ValidationError where
  | missingField : ValidationError
  | wrongType : ValidationError
deriving DecidableEq, Repr

/-- Modelled from the spec: the schema-validation layer (pydantic, driven by
the `text: str` annotation of `TextRequest`) requires the `text` field to be
present and to be a string; absence or wrong type fails before the handler
body runs. -/
def TextRequest.validate (body : Json) : Except ValidationError TextRequest :=
  match body.getField "text" with
  | some (Json.str s) => Except.ok ⟨s⟩
  | some _ => Except.error ValidationError.wrongType
  | none => Except.error ValidationError.missingField

/-- One entry of the `entities` list built by `extract_entities`: the dict
`{"text": ..., "label": ..., "start_char": ..., "end_char": ...}`. -/
structure Entity where
  text : String
  label : String
  start_char : Int
  end_char : Int
deriving DecidableEq, Repr

/-- The dict comprehension body: the four fields copied from one span. -/
def spanToEntity (ent : Span) : Entity :=
  { text := ent.text
    label := ent.label
    start_char := ent.start_char
    end_char := ent.end_char }

/-- The success payload of `POST /ner`:
`{"entities": entities, "input": request.text}`. -/
structure NerResponse where
  entities : List Entity
  input : String
deriving DecidableEq, Repr

/-- The body of the handler `extract_entities` after validation: run the
model on `request.text`, map each span of `doc.ents` to an `Entity`, and
return the entities together with the original input. An exception from the
model is not caught, so it propagates (`Except.error`). -/
def extract_entities (nlp : Annotator) (request : TextRequest) :
    Except ExtractorError NerResponse :=
  match nlp request.text with
  | Except.error e => Except.error e
  | Except.ok ents =>
      Except.ok { entities := ents.map spanToEntity, input := request.text }

/-- The body of the handler `read_root`. -/
def read_root : String := "NER microservice is running!"

/-- A response body, one constructor per shape the service can produce. -/
inductive ResponseBody where
  | root (message : String) : ResponseBody
  | ner (r : NerResponse) : ResponseBody
  | validationFailure (e : ValidationError) : ResponseBody
  | serverError (e : ExtractorError) : ResponseBody
deriving DecidableEq, Repr

/-- An HTTP response: status code and body. -/
structure Response where
  status : Nat
  body : ResponseBody
deriving DecidableEq, Repr

/-- An incoming request to one of the two bound routes. -/
inductive Request where
  | getRoot : Request
  | postNer (body : Json) : Request

/-- Modelled from the spec: the framework's dispatch and status mapping for
`POST /ner` — validation failure becomes a 422 client error before the
handler runs; an uncaught exception from the handler becomes an unstructured
500; a normal return becomes a 200 with the handler's payload. -/
def postNer (nlp : Annotator) (body : Json) : Response :=
  match TextRequest.validate body with
  | Except.error e => { status := 422, body := ResponseBody.validationFailure e }
  | Except.ok req =>
      match extract_entities nlp req with
      | Except.error e => { status := 500, body := ResponseBody.serverError e }
      | Except.ok r => { status := 200, body := ResponseBody.ner r }

/-- Route dispatch: the two routes bound on the app. -/
def handle (nlp : Annotator) : Request → Response
  | Request.getRoot => { status := 200, body := ResponseBody.root read_root }
  | Request.postNer body => postNer nlp body

/-- `true` exactly on JSON strings; used to state the wrong-type condition. -/
def Json.isStr : Json → Bool
  | Json.str _ => true
  | _ => false

/-- The Python slice `t[a:b]` on the characters of `t`, for integer bounds. -/
def pySlice (t : String) (a b : Int) : String :=
  String.mk ((t.toList.drop a.toNat).take (b - a).toNat)

/-- Modelled from the spec: the well-formedness contract of a span produced
by the external model over its source text — `0 <= start_char < end_char <=
length(t)` and `t[start_char:end_char] == text`. -/
def SpanWf (t : String) (ent : Span) : Prop :=
  0 ≤ ent.start_char ∧ ent.start_char < ent.end_char ∧
    ent.end_char ≤ (t.length : Int) ∧
    pySlice t ent.start_char ent.end_char = ent.text

/-- Two consecutive spans are in discovery order: starts ascending and the
first ends at or before the second starts (no overlap). -/
def SpanStep (a b : Span) : Prop :=
  a.start_char ≤ b.start_char ∧ a.end_char ≤ b.start_char

/-- Modelled from the spec: the model's output sequence is ordered left to
right with non-overlapping spans. -/
def spansOrdered (spans : List Span) : Prop :=
  List.Chain' SpanStep spans

/-- Two consecutive response entities: starts ascending, no overlap. -/
def EntityStep (a b : Entity) : Prop :=
  a.start_char ≤ b.start_char ∧ a.end_char ≤ b.start_char

/-- The `entities` list of a response is sorted by `start_char` ascending
with non-overlapping spans. -/
def entitiesOrdered (ents : List Entity) : Prop :=
  List.Chain' EntityStep ents

/-- Failure of `spacy.load("en_core_web_sm")` at module import time (model
artifact missing or corrupt). -/
structure LoadError where
  msg : String
deriving DecidableEq, Repr

/-- The process-wide state after startup: only the loaded model reference
(the module-scope variable `nlp`). -/
structure ServerState where
  nlp : Annotator

/-- Modelled from the spec: module import runs `nlp = spacy.load(...)` once;
if the load raises, the import fails and the process does not start, so no
server state ever exists. -/
def startProcess (load : Except LoadError Annotator) :
    Except LoadError ServerState :=
  match load with
  | Except.error e => Except.error e
  | Except.ok nlp => Except.ok { nlp := nlp }

/-- One request handled against the process state: the handlers read the
module-scope `nlp` and assign nothing, so the state they leave behind is the
state they were given. -/
def handleSt (s : ServerState) (req : Request) : Response × ServerState :=
  (handle s.nlp req, s)

/-- A whole request history handled in order, threading the process state. -/
def serveAll (s : ServerState) : List Request → List Response × ServerState
  | [] => ([], s)
  | req :: reqs =>
      let step := handleSt s req
      let rest := serveAll step.2 reqs
      (step.1 :: rest.1, rest.2)

/-- Modelled from the spec: the process lifecycle — load the model once at
startup, then serve every request with that one model; a load failure is
fatal and no request is ever served. -/
def runProcess (load : Except LoadError Annotator) (reqs : List Request) :
    Except LoadError (List Response) :=
  match startProcess load with
  | Except.error e => Except.error e
  | Except.ok s => Except.ok (serveAll s reqs).1

/-! ## Helper lemmas -/

/-- A body `{"text": t}` with `t` a JSON string passes validation. -/
theorem validate_text_obj (t : String) :
    TextRequest.validate (Json.obj [("text", Json.str t)]) = Except.ok ⟨t⟩ := by
  simp [TextRequest.validate, Json.getField, List.lookup]

/-- Computation of `POST /ner` on `{"text": t}` when the model succeeds. -/
theorem handle_text_ok (nlp : Annotator) (t : String) (spans : List Span)
    (hok : nlp t = Except.ok spans) :
    handle nlp (Request.postNer (Json.obj [("text", Json.str t)])) =
      { status := 200,
        body := ResponseBody.ner
          { entities := spans.map spanToEntity, input := t } } := by
  simp [handle, postNer, validate_text_obj, extract_entities, hok]

/-- Serving any request history leaves the process state exactly as it was. -/
theorem serveAll_snd (s : ServerState) (reqs : List Request) :
    (serveAll s reqs).2 = s := by
  induction reqs with
  | nil => rfl
  | cons r rs ih => simp [serveAll, handleSt, ih]

/-- The responses to a request history are each computed from the one model
loaded at startup. -/
theorem serveAll_fst (s : ServerState) (reqs : List Request) :
    (serveAll s reqs).1 = reqs.map (handle s.nlp) := by
  induction reqs with
  | nil => rfl
  | cons r rs ih => simp [serveAll, handleSt, ih]

/-! ## Claims -/

/-- C1: for every string input `t`, `POST /ner` with body `{"text": t}` (on
any run where the model returns) answers status 200 with an `input` field
equal to `t` exactly. -/
theorem c1_ner_echoes_input (nlp : Annotator) (t : String) (spans : List Span)
    (hok : nlp t = Except.ok spans) :
    ∃ r : NerResponse,
      handle nlp (Request.postNer (Json.obj [("text", Json.str t)])) =
        { status := 200, body := ResponseBody.ner r } ∧ r.input = t :=
  ⟨{ entities := spans.map spanToEntity, input := t },
    handle_text_ok nlp t spans hok, rfl⟩

/-- Witness for C1 at the concrete input "hello". -/
theorem c1_witness :
    ((fun _ => Except.ok []) : Annotator) "hello" = Except.ok [] ∧
    ∃ r : NerResponse,
      handle ((fun _ => Except.ok []) : Annotator)
          (Request.postNer (Json.obj [("text", Json.str "hello")])) =
        { status := 200, body := ResponseBody.ner r } ∧ r.input = "hello" :=
  ⟨rfl, c1_ner_echoes_input _ "hello" [] rfl⟩

/-- C2: a `POST /ner` body that omits `text` or supplies it with a
non-string value is answered with status 422, and the response does not
depend on the model at all (the extractor is never invoked). -/
theorem c2_validation_rejects (nlp : Annotator) (body : Json)
    (h : body.getField "text" = none ∨
      ∃ j, body.getField "text" = some j ∧ j.isStr = false) :
    (handle nlp (Request.postNer body)).status = 422 ∧
      ∀ nlp' : Annotator,
        handle nlp' (Request.postNer body) = handle nlp (Request.postNer body) := by
  have hval : ∃ e, TextRequest.validate body = Except.error e := by
    rcases h with h | ⟨j, hj, hstr⟩
    · exact ⟨ValidationError.missingField, by simp [TextRequest.validate, h]⟩
    · refine ⟨ValidationError.wrongType, ?_⟩
      unfold TextRequest.validate
      rw [hj]
      cases j <;> simp_all [Json.isStr]
  rcases hval with ⟨e, he⟩
  refine ⟨?_, ?_⟩
  · simp [handle, postNer, he]
  · intro nlp'
    simp [handle, postNer, he]

/-- Witness for C2 at the concrete wrong-typed body `{"text": 123}`. -/
theorem c2_witness :
    (handle ((fun _ => Except.ok []) : Annotator)
        (Request.postNer (Json.obj [("text", Json.num 123)]))).status = 422 ∧
      ∀ nlp' : Annotator,
        handle nlp' (Request.postNer (Json.obj [("text", Json.num 123)])) =
          handle ((fun _ => Except.ok []) : Annotator)
            (Request.postNer (Json.obj [("text", Json.num 123)])) :=
  c2_validation_rejects _ _ (Or.inr ⟨Json.num 123, rfl, rfl⟩)

/-- C5: `GET /`, after any prior request history, answers status 200 with
the fixed non-empty liveness message and leaves the state untouched. -/
theorem c5_root_liveness (s : ServerState) (history : List Request) :
    (handleSt (serveAll s history).2 Request.getRoot).1 =
        { status := 200, body := ResponseBody.root read_root } ∧
      (handleSt (serveAll s history).2 Request.getRoot).2 =
        (serveAll s history).2 ∧
      read_root ≠ "" := by
  refine ⟨rfl, rfl, ?_⟩
  simp [read_root]

/-- C6: when validation passes and the model raises, the handler neither
catches nor translates the failure: the response is an unstructured 500
carrying the model's error. -/
theorem c6_extractor_failure_propagates (nlp : Annotator) (body : Json)
    (req : TextRequest) (e : ExtractorError)
    (hval : TextRequest.validate body = Except.ok req)
    (herr : nlp req.text = Except.error e) :
    handle nlp (Request.postNer body) =
      { status := 500, body := ResponseBody.serverError e } := by
  simp [handle, postNer, hval, extract_entities, herr]

/-- Witness for C6: a model that raises on every input, on body
`{"text": "x"}`. -/
theorem c6_witness :
    handle ((fun _ => Except.error ⟨"boom"⟩) : Annotator)
        (Request.postNer (Json.obj [("text", Json.str "x")])) =
      { status := 500, body := ResponseBody.serverError ⟨"boom"⟩ } :=
  c6_extractor_failure_propagates _ _ ⟨"x"⟩ ⟨"boom"⟩ (validate_text_obj "x") rfl

/-- C3: on a model run whose spans satisfy the extractor's contract, every
entity `e` of the `POST /ner` response satisfies
`0 <= e.start_char < e.end_char <= length t` and
`t[e.start_char:e.end_char] = e.text`. -/
theorem c3_span_invariant (nlp : Annotator) (t : String) (spans : List Span)
    (hok : nlp t = Except.ok spans)
    (hwf : ∀ ent ∈ spans, SpanWf t ent) :
    ∃ r : NerResponse,
      handle nlp (Request.postNer (Json.obj [("text", Json.str t)])) =
        { status := 200, body := ResponseBody.ner r } ∧
      ∀ e ∈ r.entities,
        0 ≤ e.start_char ∧ e.start_char < e.end_char ∧
          e.end_char ≤ (t.length : Int) ∧
          pySlice t e.start_char e.end_char = e.text := by
  refine ⟨_, handle_text_ok nlp t spans hok, ?_⟩
  intro e he
  simp only [List.mem_map] at he
  rcases he with ⟨ent, hent, rfl⟩
  simpa [SpanWf, spanToEntity] using hwf ent hent

/-- Witness for C3: one span covering the whole two-character input. -/
theorem c3_witness :
    ∃ r : NerResponse,
      handle ((fun _ => Except.ok [⟨"ab", "ORG", 0, 2⟩]) : Annotator)
          (Request.postNer (Json.obj [("text", Json.str "ab")])) =
        { status := 200, body := ResponseBody.ner r } ∧
      ∀ e ∈ r.entities,
        0 ≤ e.start_char ∧ e.start_char < e.end_char ∧
          e.end_char ≤ (String.length "ab" : Int) ∧
          pySlice "ab" e.start_char e.end_char = e.text :=
  c3_span_invariant _ "ab" [⟨"ab", "ORG", 0, 2⟩] rfl (by
    intro ent hent
    simp only [List.mem_singleton] at hent
    subst hent
    exact ⟨by decide, by decide, by decide, rfl⟩)

/-- C4: on a model run whose span sequence is left-to-right and
non-overlapping, the response's `entities` list is sorted by `start_char`
ascending with each span ending at or before the next one starts. -/
theorem c4_sorted_nonoverlapping (nlp : Annotator) (t : String)
    (spans : List Span) (hok : nlp t = Except.ok spans)
    (hord : spansOrdered spans) :
    ∃ r : NerResponse,
      handle nlp (Request.postNer (Json.obj [("text", Json.str t)])) =
        { status := 200, body := ResponseBody.ner r } ∧
      entitiesOrdered r.entities := by
  refine ⟨_, handle_text_ok nlp t spans hok, ?_⟩
  simpa [entitiesOrdered, List.chain'_map, EntityStep, spanToEntity,
    spansOrdered, SpanStep] using hord

/-- Witness for C4: two disjoint spans in discovery order. -/
theorem c4_witness :
    ∃ r : NerResponse,
      handle ((fun _ => Except.ok [⟨"a", "X", 0, 1⟩, ⟨"b", "Y", 2, 3⟩]) : Annotator)
          (Request.postNer (Json.obj [("text", Json.str "a b")])) =
        { status := 200, body := ResponseBody.ner r } ∧
      entitiesOrdered r.entities :=
  c4_sorted_nonoverlapping _ "a b" [⟨"a", "X", 0, 1⟩, ⟨"b", "Y", 2, 3⟩] rfl
    (List.Chain.cons ⟨by decide, by decide⟩ List.Chain.nil)

/-- C7: the model is loaded once at startup; a load failure is fatal and no
request is ever served, while a successful load serves every request with
that single loaded model. -/
theorem c7_model_loaded_once (load : Except LoadError Annotator)
    (reqs : List Request) :
    (∀ e, load = Except.error e → runProcess load reqs = Except.error e) ∧
      ∀ nlp, load = Except.ok nlp →
        runProcess load reqs = Except.ok (reqs.map (handle nlp)) := by
  constructor
  · intro e he
    simp [runProcess, startProcess, he]
  · intro nlp hnlp
    simp [runProcess, startProcess, hnlp, serveAll_fst]

/-- Witness for C7: a failing load serves nothing; a successful load serves
with the loaded model. -/
theorem c7_witness :
    runProcess (Except.error ⟨"artifact missing"⟩) [Request.getRoot] =
        Except.error ⟨"artifact missing"⟩ ∧
      runProcess (Except.ok ((fun _ => Except.ok []) : Annotator))
          [Request.getRoot] =
        Except.ok [{ status := 200, body := ResponseBody.root read_root }] := by
  constructor
  · exact (c7_model_loaded_once _ _).1 _ rfl
  · have h :=
      (c7_model_loaded_once (Except.ok ((fun _ => Except.ok []) : Annotator))
        [Request.getRoot]).2 _ rfl
    simpa [handle] using h

/-- C8: handling any request history leaves the process-wide state exactly
as it started (the model reference is never reassigned), and every response
is a function of the initial state and its own request alone: nothing
created during a request persists into a later one. -/
theorem c8_state_unchanged (s : ServerState) (reqs : List Request) :
    (serveAll s reqs).2 = s ∧ (serveAll s reqs).1 = reqs.map (handle s.nlp) :=
  ⟨serveAll_snd s reqs, serveAll_fst s reqs⟩

/-- C9: the response's `entities` list is the element-wise image of the
model's span sequence under the four-field copy `spanToEntity`: same length,
same order, no span filtered out, added or reordered. -/
theorem c9_entities_elementwise (nlp : Annotator) (t : String)
    (spans : List Span) (hok : nlp t = Except.ok spans) :
    ∃ r : NerResponse,
      handle nlp (Request.postNer (Json.obj [("text", Json.str t)])) =
        { status := 200, body := ResponseBody.ner r } ∧
      r.entities = spans.map spanToEntity ∧
      r.entities.length = spans.length := by
  refine ⟨_, handle_text_ok nlp t spans hok, rfl, ?_⟩
  simp

/-- Witness for C9 on the spec's example sentence with one concrete span. -/
theorem c9_witness :
    ∃ r : NerResponse,
      handle ((fun _ => Except.ok [⟨"Hawaii", "GPE", 25, 31⟩]) : Annotator)
          (Request.postNer
            (Json.obj [("text", Json.str "Barack Obama was born in Hawaii.")])) =
        { status := 200, body := ResponseBody.ner r } ∧
      r.entities = [Span.mk "Hawaii" "GPE" 25 31].map spanToEntity ∧
      r.entities.length = [Span.mk "Hawaii" "GPE" 25 31].length :=
  c9_entities_elementwise _ "Barack Obama was born in Hawaii." _ rfl

/-- C10: on the empty input, when the model's spans satisfy the span
contract over `""`, the response is status 200 with `input = ""` and an
empty `entities` list (no well-formed span can exist over the empty text). -/
theorem c10_empty_input (nlp : Annotator) (spans : List Span)
    (hok : nlp "" = Except.ok spans)
    (hwf : ∀ ent ∈ spans, SpanWf "" ent) :
    handle nlp (Request.postNer (Json.obj [("text", Json.str "")])) =
      { status := 200,
        body := ResponseBody.ner { entities := [], input := "" } } := by
  have hnil : spans = [] := by
    cases spans with
    | nil => rfl
    | cons a l =>
        rcases hwf a (List.mem_cons_self a l) with ⟨h1, h2, h3, _⟩
        simp only [String.length_empty, Nat.cast_zero] at h3
        omega
  subst hnil
  simpa using handle_text_ok nlp "" [] hok

/-- Witness for C10: a model returning no spans on the empty input. -/
theorem c10_witness :
    handle ((fun _ => Except.ok []) : Annotator)
        (Request.postNer (Json.obj [("text", Json.str "")])) =
      { status := 200,
        body := ResponseBody.ner { entities := [], input := "" } } :=
  c10_empty_input _ [] rfl (by simp)

end NlpService
